import Mathlib

/-!
Verification of the landing-judge overlay server (`app.py`, `main.py`).

The Python sources are shallowly embedded: JSON values become an inductive
type, file contents and in-memory state become explicit state records,
external collaborators (the Polly synthesis provider, the random quote
picker, the clock) become oracle parameters, and `hashlib.md5` is
implemented bit-for-bit on `Nat` so that cache keys and artifact filenames
are computed exactly as the code computes them.
-/

namespace LandingJudge

/-! ## JSON value model

Python/JSON values as produced by `json.load` and consumed by `json.dump`.
Integers and floats are distinct in Python; floats are modelled as exact
rationals (the configuration floats that reach a payload are small decimal
literals).  Dicts are association lists in insertion order with unique keys,
matching Python dict semantics. -/

inductive Json where
  | null : Json
  | bool (b : Bool) : Json
  | num (n : Int) : Json
  | fnum (q : Rat) : Json
  | str (s : String) : Json
  | arr (elems : List Json) : Json
  | obj (fields : List (String × Json)) : Json
deriving Repr

/-- Lookup `d[k]` on an association-list dict (first binding wins; Python
dicts have unique keys). -/
def lookupStr {α : Type} : List (String × α) → String → Option α
  | [], _ => none
  | (k, v) :: t, key => if k = key then some v else lookupStr t key

/-- Assignment `d[k] = v` on a dict: replaces the value in place if the key is bound
(Python keeps the original insertion position), otherwise appends the new
binding at the end. -/
def dictUpd {α : Type} (l : List (String × α)) (k : String) (v : α) : List (String × α) :=
  if (lookupStr l k).isSome then
    l.map (fun p => if p.1 = k then (k, v) else p)
  else
    l ++ [(k, v)]

/-- Field projection on a JSON object (`.get` on a dict, `none` otherwise). -/
def jget (j : Json) (k : String) : Option Json :=
  match j with
  | Json.obj fields => lookupStr fields k
  | _ => none

/-! ## MD5 (`hashlib.md5(...).hexdigest()`)

RFC 1321 MD5, computed over the UTF-8 bytes of the input string, on `Nat`
with explicit `% 2^32` reductions.  Bytes are `Nat < 256`. -/

/-- UTF-8 encoding of one character (as `str.encode("utf-8")` does). -/
def charUtf8 (c : Char) : List Nat :=
  let n := c.toNat
  if n < 0x80 then [n]
  else if n < 0x800 then [0xC0 + n / 64, 0x80 + n % 64]
  else if n < 0x10000 then [0xE0 + n / 4096, 0x80 + (n / 64) % 64, 0x80 + n % 64]
  else [0xF0 + n / 262144, 0x80 + (n / 4096) % 64, 0x80 + (n / 64) % 64, 0x80 + n % 64]

/-- UTF-8 bytes of a string. -/
def utf8Bytes (s : String) : List Nat :=
  s.data.flatMap charUtf8

/-- Left rotation on 32-bit words. -/
def rotl32 (x s : Nat) : Nat :=
  ((x <<< s) ||| (x >>> (32 - s))) % 4294967296

/-- The 64 MD5 sine-derived constants. -/
def md5K : List Nat :=
  [0xd76aa478, 0xe8c7b756, 0x242070db, 0xc1bdceee,
   0xf57c0faf, 0x4787c62a, 0xa8304613, 0xfd469501,
   0x698098d8, 0x8b44f7af, 0xffff5bb1, 0x895cd7be,
   0x6b901122, 0xfd987193, 0xa679438e, 0x49b40821,
   0xf61e2562, 0xc040b340, 0x265e5a51, 0xe9b6c7aa,
   0xd62f105d, 0x02441453, 0xd8a1e681, 0xe7d3fbc8,
   0x21e1cde6, 0xc33707d6, 0xf4d50d87, 0x455a14ed,
   0xa9e3e905, 0xfcefa3f8, 0x676f02d9, 0x8d2a4c8a,
   0xfffa3942, 0x8771f681, 0x6d9d6122, 0xfde5380c,
   0xa4beea44, 0x4bdecfa9, 0xf6bb4b60, 0xbebfbc70,
   0x289b7ec6, 0xeaa127fa, 0xd4ef3085, 0x04881d05,
   0xd9d4d039, 0xe6db99e5, 0x1fa27cf8, 0xc4ac5665,
   0xf4292244, 0x432aff97, 0xab9423a7, 0xfc93a039,
   0x655b59c3, 0x8f0ccc92, 0xffeff47d, 0x85845dd1,
   0x6fa87e4f, 0xfe2ce6e0, 0xa3014314, 0x4e0811a1,
   0xf7537e82, 0xbd3af235, 0x2ad7d2bb, 0xeb86d391]

/-- The 64 MD5 per-round shift amounts. -/
def md5S : List Nat :=
  [7, 12, 17, 22, 7, 12, 17, 22, 7, 12, 17, 22, 7, 12, 17, 22,
   5, 9, 14, 20, 5, 9, 14, 20, 5, 9, 14, 20, 5, 9, 14, 20,
   4, 11, 16, 23, 4, 11, 16, 23, 4, 11, 16, 23, 4, 11, 16, 23,
   6, 10, 15, 21, 6, 10, 15, 21, 6, 10, 15, 21, 6, 10, 15, 21]

/-- One MD5 operation (step `i` of 64) on the running `(A, B, C, D)` state,
given the 16 message words `M` of the current block. -/
def md5Op (M : List Nat) (st : Nat × Nat × Nat × Nat) (i : Nat) : Nat × Nat × Nat × Nat :=
  let a := st.1
  let b := st.2.1
  let c := st.2.2.1
  let d := st.2.2.2
  let fg : Nat × Nat :=
    if i < 16 then ((b &&& c) ||| ((b ^^^ 0xffffffff) &&& d), i)
    else if i < 32 then ((d &&& b) ||| ((d ^^^ 0xffffffff) &&& c), (5 * i + 1) % 16)
    else if i < 48 then (b ^^^ c ^^^ d, (3 * i + 5) % 16)
    else (c ^^^ (b ||| (d ^^^ 0xffffffff)), (7 * i) % 16)
  let f := (fg.1 + a + md5K.getD i 0 + M.getD fg.2 0) % 4294967296
  (d, (b + rotl32 f (md5S.getD i 0)) % 4294967296, b, c)

/-- Little-endian 32-bit word from four bytes. -/
def leWord (a b c d : Nat) : Nat :=
  a + 256 * (b + 256 * (c + 256 * d))

/-- The 16 little-endian message words of one 64-byte block. -/
def md5Words (block : List Nat) : List Nat :=
  (List.range 16).map fun j =>
    leWord (block.getD (4 * j) 0) (block.getD (4 * j + 1) 0)
           (block.getD (4 * j + 2) 0) (block.getD (4 * j + 3) 0)

/-- Process one 64-byte block, updating the four-word digest state. -/
def md5Block (st : Nat × Nat × Nat × Nat) (block : List Nat) : Nat × Nat × Nat × Nat :=
  let M := md5Words block
  let r := (List.range 64).foldl (md5Op M) st
  ((st.1 + r.1) % 4294967296, (st.2.1 + r.2.1) % 4294967296,
   (st.2.2.1 + r.2.2.1) % 4294967296, (st.2.2.2 + r.2.2.2) % 4294967296)

/-- MD5 padding: `0x80`, zeros to 56 mod 64, then the 64-bit little-endian
bit length. -/
def md5Pad (msg : List Nat) : List Nat :=
  let len := msg.length
  let z := (64 + 56 - (len + 1) % 64) % 64
  let bitLen := (8 * len) % 18446744073709551616
  msg ++ [0x80] ++ List.replicate z 0 ++
    [bitLen % 256, bitLen / 256 % 256, bitLen / 65536 % 256, bitLen / 16777216 % 256,
     bitLen / 4294967296 % 256, bitLen / 1099511627776 % 256,
     bitLen / 281474976710656 % 256, bitLen / 72057594037927936 % 256]

/-- Split a padded message into its 64-byte blocks. -/
def md5Chunks (l : List Nat) : List (List Nat) :=
  (List.range (l.length / 64)).map fun i => (l.drop (64 * i)).take 64

/-- Little-endian bytes of one 32-bit word. -/
def leBytes4 (n : Nat) : List Nat :=
  [n % 256, n / 256 % 256, n / 65536 % 256, n / 16777216 % 256]

/-- The 16-byte MD5 digest of a byte sequence. -/
def md5Bytes (msg : List Nat) : List Nat :=
  let r := (md5Chunks (md5Pad msg)).foldl md5Block
    (0x67452301, 0xefcdab89, 0x98badcfe, 0x10325476)
  leBytes4 r.1 ++ leBytes4 r.2.1 ++ leBytes4 r.2.2.1 ++ leBytes4 r.2.2.2

/-- Lowercase hex digit. -/
def hexDigit (n : Nat) : Char :=
  if n < 10 then Char.ofNat (48 + n) else Char.ofNat (87 + n)

/-- Two lowercase hex digits of a byte. -/
def byteHex (b : Nat) : List Char :=
  [hexDigit (b / 16), hexDigit (b % 16)]

/-- Python `hashlib.md5(s.encode("utf-8")).hexdigest()`. -/
def md5hex (s : String) : String :=
  String.mk ((md5Bytes (utf8Bytes s)).flatMap byteHex)

/-! ## Shared helpers

`level_for_score` and the `max(1, min(10, int(score)))` clamp appear
verbatim in both `app.py` and `main.py`. -/

/-- Tier function `level_for_score` (app.py:49, main.py:149). -/
def level_for_score (score : Int) : String :=
  if score ≤ 3 then "bad"
  else if score ≤ 6 then "ok"
  else if score ≤ 8 then "good"
  else "great"

/-- Python `max(1, min(10, int(score)))` — the clamp both vote handlers apply. -/
def clamp10 (score : Int) : Int :=
  max 1 (min 10 score)

/-- HTTP response produced by a Flask handler; `jsonify` yields status 200. -/
structure HttpResponse where
  status : Nat
  body : Json
deriving Repr

/-! ## SSE hub (`SSEHub`, identical in app.py:204 and main.py:632)

A subscriber queue is a Python `queue.Queue`: `maxsize = 0` means unbounded;
`put_nowait` raises `Full` on a bounded queue at capacity.  The `broken`
flag models a queue whose `put_nowait` raises for any other reason (the
code's comment: "If a queue is full/broken, drop the message for that
client"). -/

structure PyQueue where
  items : List Json
  maxsize : Nat
  broken : Bool
deriving Repr

/-- Python `q.put_nowait(x)`; `none` models the raised exception. -/
def put_nowait (q : PyQueue) (x : Json) : Option PyQueue :=
  if q.broken then none
  else if 0 < q.maxsize ∧ q.maxsize ≤ q.items.length then none
  else some { q with items := q.items ++ [x] }

namespace SSEHub

/-- Method `SSEHub.broadcast`: snapshot the client list, then `put_nowait` the
payload on each queue, swallowing any per-queue exception (that queue is
left as it was; the loop continues with the remaining queues). -/
def broadcast (payload : Json) (clients : List PyQueue) : List PyQueue :=
  clients.map fun q => (put_nowait q payload).getD q

end SSEHub

/-! ## Vote store (`DataStore`, app.py:122)

The persisted vote-log file is modelled by its observable read outcomes:
missing, unreadable (`open`/`read` raises), malformed (`json.load` raises),
or parsed JSON content.  `_atomic_write` always yields `content`. -/

inductive FileState where
  | absent : FileState
  | unreadable : FileState
  | malformed : FileState
  | content (v : Json) : FileState
deriving Repr

namespace DataStore

/-- The fresh log `{"landings": []}` written by self-healing and `reset`. -/
def emptyLogJson : Json :=
  Json.obj [("landings", Json.arr [])]

/-- Python `self._read()`, a `json.load` of the file; `none` models a raised
exception. -/
def fileRead : FileState → Option Json
  | FileState.content v => some v
  | _ => none

/-- The structural validity check of `_ensure_file`: a dict containing a
`"landings"` key bound to a list. -/
def validLog : Json → Bool
  | Json.obj fields =>
    match lookupStr fields "landings" with
    | some (Json.arr _) => true
    | _ => false
  | _ => false

/-- Method `DataStore._ensure_file` (app.py:129): write a fresh empty log if the
file is absent; otherwise read and parse it, and rewrite a fresh empty log
if reading, parsing, or the structure check fails. -/
def ensure_file (fs : FileState) : FileState :=
  match fs with
  | FileState.absent => FileState.content emptyLogJson
  | FileState.unreadable => FileState.content emptyLogJson
  | FileState.malformed => FileState.content emptyLogJson
  | FileState.content v =>
    if validLog v then FileState.content v else FileState.content emptyLogJson

/-- One vote record `{"score": int(score), "ts": ts}`. -/
def record (score : Int) (ts : String) : Json :=
  Json.obj [("score", Json.num score), ("ts", Json.str ts)]

/-- Python `data.setdefault("landings", []).append(r)`; `none` models the
`AttributeError` raised when `data` is not a dict or the existing
`"landings"` value has no `append` (is not a list). -/
def setdefaultAppend (data : Json) (r : Json) : Option Json :=
  match data with
  | Json.obj fields =>
    match lookupStr fields "landings" with
    | some (Json.arr l) => some (Json.obj (dictUpd fields "landings" (Json.arr (l ++ [r]))))
    | some _ => none
    | none => some (Json.obj (fields ++ [("landings", Json.arr [r])]))
  | _ => none

/-- Method `DataStore.append` (app.py:154): read the file (a failed read degrades
to `{"landings": []}`), append the record under `"landings"`, and
atomically write the result back. -/
def append (fs : FileState) (score : Int) (ts : String) : Option FileState :=
  let data := (fileRead fs).getD emptyLogJson
  (setdefaultAppend data (record score ts)).map FileState.content

/-- Method `DataStore.reset` (app.py:163): atomically write a fresh empty log. -/
def reset (_fs : FileState) : FileState :=
  FileState.content emptyLogJson

/-- Method `DataStore.get_landings` (app.py:167): read the file (a failed read
degrades to `{"landings": []}`), take `data.get("landings", [])`, and
return `[]` if that value is not a list.  `none` models the
`AttributeError` when the parsed content is not a dict. -/
def get_landings (fs : FileState) : Option (List Json) :=
  let data := (fileRead fs).getD emptyLogJson
  match data with
  | Json.obj fields =>
    match lookupStr fields "landings" with
    | some (Json.arr l) => some l
    | some _ => some []
    | none => some []
  | _ => none

end DataStore

/-! ## Stats aggregator (`compute_stats`, app.py:180) -/

/-- Truncate a rational toward zero, as Python's `int(float)` does. -/
def ratTrunc (q : Rat) : Int :=
  if 0 ≤ q then ⌊q⌋ else ⌈q⌉

/-- Python `int(v)` on a JSON value: succeeds on ints, bools, floats
(truncating) and integer-literal strings (optionally signed); `none`
models the raised `TypeError`/`ValueError`.  (Python also accepts
surrounding whitespace and digit-group underscores; those forms do not
occur in this system's data and are not modelled.) -/
def pyInt : Json → Option Int
  | Json.num n => some n
  | Json.bool b => some (if b then 1 else 0)
  | Json.fnum q => some (ratTrunc q)
  | Json.str s =>
    let core := if s.startsWith "-" ∨ s.startsWith "+" then s.drop 1 else s
    if core ≠ "" ∧ core.all Char.isDigit then
      some (if s.startsWith "-" then -(core.toNat!) else (core.toNat! : Int))
    else none
  | _ => none

/-- Python `int(x.get("score", 0))` for one landing record: a record lacking a
`"score"` field contributes the default `0`; a non-dict record raises. -/
def scoreOf : Json → Option Int
  | Json.obj fields => pyInt ((lookupStr fields "score").getD (Json.num 0))
  | _ => none

/-- The scores list `[int(x.get("score", 0)) for x in landings]`; `none`
models an exception escaping the comprehension. -/
def landingScores (landings : List Json) : Option (List Int) :=
  landings.mapM scoreOf

/-- Python `max(scores)` with the guard the code writes, 0 on an empty list. -/
def bestScore : List Int → Int
  | [] => 0
  | h :: t => t.foldl max h

/-- The sort key order used for `top`: Python's
`indexed.sort(key=lambda t: (-t[1], t[0]))` sorts the `(index, score)`
pairs by descending score, ties by ascending original index.  The key is
injective (indices are distinct), so the sorted result is the unique
permutation sorted by this order. -/
def topKey (a b : Nat × Int) : Prop :=
  b.2 < a.2 ∨ (a.2 = b.2 ∧ a.1 ≤ b.1)

instance : DecidableRel topKey := fun a b => by
  unfold topKey; infer_instance

instance : IsTotal (Nat × Int) topKey where
  total a b := by
    rcases lt_trichotomy a.2 b.2 with h | h | h
    · exact Or.inr (Or.inl h)
    · rcases Nat.le_total a.1 b.1 with h1 | h1
      · exact Or.inl (Or.inr ⟨h, h1⟩)
      · exact Or.inr (Or.inr ⟨h.symm, h1⟩)
    · exact Or.inl (Or.inl h)

instance : IsTrans (Nat × Int) topKey where
  trans a b c hab hbc := by
    rcases hab with h1 | ⟨h1, h1i⟩ <;> rcases hbc with h2 | ⟨h2, h2i⟩
    · exact Or.inl (h2.trans h1)
    · exact Or.inl (h2 ▸ h1)
    · exact Or.inl (h1 ▸ h2)
    · exact Or.inr ⟨h1.trans h2, h1i.trans h2i⟩

instance : IsAntisymm (Nat × Int) topKey where
  antisymm a b hab hba := by
    rcases hab with h1 | ⟨h1, h1i⟩ <;> rcases hba with h2 | ⟨h2, h2i⟩
    · exact absurd (h1.trans h2) (lt_irrefl _)
    · exact absurd h1 (h2 ▸ lt_irrefl _)
    · exact absurd h2 (h1 ▸ lt_irrefl _)
    · exact Prod.ext (Nat.le_antisymm h1i h2i) h1

/-- The derived statistics view.  `count`, `best`, `recent`, `top` are as
computed by the code; `total` is `sum(scores)`, the exact numerator of the
code's `average = round(sum(scores) / count, 2)` (the rounded float itself
is IEEE-754 arithmetic and is not modelled). -/
structure StatsView where
  count : Nat
  total : Int
  best : Int
  recent : List Int
  top : List Int
deriving Repr, DecidableEq

/-- Function `compute_stats` (app.py:180).  Field `recent` is `list(reversed(scores[-10:]))`;
`top` sorts `list(enumerate(scores))` by `(-score, index)` (Python's stable
sort; the key is injective here, so any correct sort by this total order
is extensionally identical) and keeps the first five scores. -/
def compute_stats (landings : List Json) : Option StatsView :=
  (landingScores landings).map fun scores =>
    { count := scores.length
      total := scores.sum
      best := bestScore scores
      recent := (scores.drop (scores.length - 10)).reverse
      top := ((List.insertionSort topKey scores.enum).take 5).map Prod.snd }

/-! ## app.py handlers

`app.py`'s Flask handlers, embedded as pure functions over an explicit
server state.  External collaborators become oracle parameters: `pickQuote`
stands for `get_random_quote` (quotes file + `random.choice`), `synthOk`
for the Polly `synthesize_speech` call (`true` = audio bytes returned,
`false` = any exception), and `env.now` for `utc_now_iso()`. -/

namespace App

/-- Process environment of `app.py` as read at import time. -/
structure Env where
  has_creds : Bool
  fmt : String
  banner_ms : Int
  now : String
deriving Repr

/-- The whole observable server state: the vote-log file, the set of audio
files under `static/`, and the registered SSE client queues. -/
structure ServerState where
  dataFile : FileState
  staticFiles : List String
  clients : List PyQueue
deriving Repr

/-- The `SCORE_MESSAGES` dict literal (app.py:35), keys 1–10. -/
def SCORE_MESSAGES : List (Int × String) :=
  [(1, "Mayday? That was‚Ä¶ educational."),
   (2, "Hard arrival. Teeth still rattling."),
   (3, "Firm. The landing gear filed a complaint."),
   (4, "Not bad, not smooth. We felt it."),
   (5, "Acceptable. Coffee only trembled."),
   (6, "Decent touch. Cabin crew kept pouring."),
   (7, "Nice! Most passengers missed it."),
   (8, "Smooth operator. Butter adjacent."),
   (9, "Greased it. Polite applause engaged."),
   (10, "Absolute butter. Chief pilot approved!")]

/-- Dict lookup with integer keys (`SCORE_MESSAGES.get(clamped, "")`). -/
def lookupInt {α : Type} : List (Int × α) → Int → Option α
  | [], _ => none
  | (k, v) :: t, key => if k = key then some v else lookupInt t key

/-- Function `generate_audio_url` (app.py:79): empty locator without credentials;
otherwise the artifact filename is `quote_<md5(text)[:12]>.<fmt>`; an
existing file is returned immediately; otherwise Polly synthesis runs once
and any failure degrades to the empty locator.  Result: locator, updated
`static/` file set, number of synthesis calls. -/
def generate_audio_url (env : Env) (synthOk : String → Bool)
    (staticFiles : List String) (text : String) : String × List String × Nat :=
  if env.has_creds = false then ("", staticFiles, 0)
  else
    let fn := "quote_" ++ (md5hex text).take 12 ++ "." ++ env.fmt
    if fn ∈ staticFiles then ("/static/" ++ fn, staticFiles, 0)
    else if synthOk text then ("/static/" ++ fn, staticFiles ++ [fn], 1)
    else ("", staticFiles, 1)

/-- The `vote` handler (app.py:291): clamp, pick a quote, resolve audio,
compose the payload dict, broadcast it, and return it with status 200.
The vote-log file is not touched. -/
def vote (env : Env) (synthOk : String → Bool) (pickQuote : Int → String)
    (st : ServerState) (score : Int) : HttpResponse × ServerState :=
  let clamped := clamp10 score
  let ts := env.now
  let quote := pickQuote clamped
  let audio := generate_audio_url env synthOk st.staticFiles quote
  let payload := Json.obj
    [("type", Json.str "vote"),
     ("score", Json.num clamped),
     ("message", Json.str ((lookupInt SCORE_MESSAGES clamped).getD "")),
     ("quote", Json.str quote),
     ("audio_url", Json.str audio.1),
     ("level", Json.str (level_for_score clamped)),
     ("duration_ms", Json.num env.banner_ms),
     ("ts", Json.str ts)]
  (⟨200, payload⟩,
   { st with staticFiles := audio.2.1,
             clients := SSEHub.broadcast payload st.clients })

/-- The `hello` event `{"type": "hello"}`. -/
def helloJson : Json :=
  Json.obj [("type", Json.str "hello")]

/-- The `reset` handler (app.py:315): broadcast a minimal hello and answer
`{"ok": true}`; the store is never referenced ("No-op for Option B"). -/
def reset (st : ServerState) : HttpResponse × ServerState :=
  (⟨200, Json.obj [("ok", Json.bool true)]⟩,
   { st with clients := SSEHub.broadcast helloJson st.clients })

end App

/-! ## main.py audio cache and vote handler

`main.py`'s `generate_audio_url` resolves the voice and engine from the
configured `POLLY_VOICE_ID` and the region's voice catalog
(`sanitize_voice_id` / `pick_engine_for_voice`, both network-dependent);
the embedded environment carries their results as `vid` and `engine`.
The synthesis provider is an oracle returning, for a text and an engine,
either audio bytes, a `botocore` `ClientError`, or any other exception. -/

namespace Main

/-- Outcome of one `polly_client.synthesize_speech` call. -/
inductive SynthResult where
  | ok : SynthResult
  | clientError : SynthResult
  | otherError : SynthResult
deriving DecidableEq, Repr

/-- The external TTS provider: text and engine determine the outcome
(the voice, format and region are fixed within one resolution). -/
def Provider : Type := String → String → SynthResult

/-- Process environment of `main.py` as observed by one request (the code
re-reads `.env` at the top of each handler). -/
structure Env where
  tts_enabled : Bool
  dingdong_enabled : Bool
  vid : String
  engine : String
  fmt : String
  region : String
  banner_ms : Int
  add_static_noise : Bool
  effect_preset : String
  static_noise_level : Rat
  radio_noise_level : Rat
  wind_noise_level : Rat
  now : String
deriving Repr

/-- One entry of `static/audio/audio_index.json`, with exactly the fields
the code writes (main.py:587). -/
structure AudioEntry where
  text : String
  voice : String
  engine : String
  format : String
  region : String
  filename : String
  created_ts : String
  play_count : Int
deriving DecidableEq, Repr

/-- Audio cache state: the persisted index file (`none` = absent or
unparsable, loaded as `{}`), the artifacts under `static/audio/`, and the
legacy artifacts directly under `static/`. -/
structure AudioState where
  indexFile : Option (List (String × AudioEntry))
  audioFiles : List String
  legacyFiles : List String
deriving Repr

/-- Python `"".join(c for c in vid if c.isalnum() or c in ("-", "_"))`. -/
def safeVoice (vid : String) : String :=
  String.mk (vid.data.filter fun c => c.isAlphanum ∨ c = '-' ∨ c = '_')

/-- Artifact filename `quote_<safe_voice>_<engine>_<text_hash>.<fmt>` with
`text_hash = md5(text)[:12]` — note: no region component. -/
def audioFilename (vid engine fmt text : String) : String :=
  "quote_" ++ safeVoice vid ++ "_" ++ engine ++ "_" ++ (md5hex text).take 12 ++ "." ++ fmt

/-- Key material `<text>|voice=<vid>|engine=<engine>|fmt=<fmt>|region=<region>`. -/
def keyMaterial (text vid engine fmt region : String) : String :=
  text ++ "|voice=" ++ vid ++ "|engine=" ++ engine ++ "|fmt=" ++ fmt ++ "|region=" ++ region

/-- Cache key `key_hash = md5(key_material)[:12]`. -/
def cacheKey (text vid engine fmt region : String) : String :=
  (md5hex (keyMaterial text vid engine fmt region)).take 12

/-- Python `'standard' if engine == 'neural' else 'neural'`. -/
def altEngine (engine : String) : String :=
  if engine = "neural" then "standard" else "neural"

/-- The success tail of `generate_audio_url`: write the artifact bytes to
`static/audio/<filename>`, record the index entry under the key computed
for `engineUsed` with `play_count = 0`, persist the index, and return the
locator.  `calls` counts the synthesis calls performed so far. -/
def finishSynth (env : Env) (st : AudioState) (index : List (String × AudioEntry))
    (text engineUsed : String) (calls : Nat) : String × AudioState × Nat :=
  let fn := audioFilename env.vid engineUsed env.fmt text
  let key := cacheKey text env.vid engineUsed env.fmt env.region
  let entry : AudioEntry :=
    { text := text, voice := env.vid, engine := engineUsed, format := env.fmt,
      region := env.region, filename := fn, created_ts := env.now, play_count := 0 }
  let files2 := if fn ∈ st.audioFiles then st.audioFiles else st.audioFiles ++ [fn]
  ("/static/audio/" ++ fn,
   { st with audioFiles := files2, indexFile := some (dictUpd index key entry) }, calls)

/-- The index-hit check of `generate_audio_url` (main.py:545): an entry
under `key` whose artifact file still exists — preferably under
`static/audio/`, falling back to the legacy `static/` location — yields
its locator; otherwise the lookup is a miss. -/
def cacheLookup (st : AudioState) (key : String) : Option String :=
  match lookupStr (st.indexFile.getD []) key with
  | some e =>
    if e.filename ∈ st.audioFiles then some ("/static/audio/" ++ e.filename)
    else if e.filename ∈ st.legacyFiles then some ("/static/" ++ e.filename)
    else none
  | none => none

/-- Function `generate_audio_url` (main.py:512): return the empty locator when TTS
is disabled or no voice is configured; compute the cache key from
`(text, vid, engine, fmt, region)`; on an index hit whose artifact file
still exists (new or legacy location) return its locator with no provider
call and no writes; otherwise synthesize, retrying exactly once with the
alternate engine on a `ClientError` (the key and filename are recomputed
under the alternate engine); a second failure, or any other exception,
degrades to the empty locator. -/
def generate_audio_url (env : Env) (prov : Provider) (st : AudioState)
    (text : String) : String × AudioState × Nat :=
  if env.tts_enabled = false then ("", st, 0)
  else if env.vid = "" then ("", st, 0)
  else
    match cacheLookup st (cacheKey text env.vid env.engine env.fmt env.region) with
    | some url => (url, st, 0)
    | none =>
      match prov text env.engine with
      | SynthResult.ok => finishSynth env st (st.indexFile.getD []) text env.engine 1
      | SynthResult.clientError =>
        match prov text (altEngine env.engine) with
        | SynthResult.ok =>
          finishSynth env st (st.indexFile.getD []) text (altEngine env.engine) 2
        | _ => ("", st, 2)
      | SynthResult.otherError => ("", st, 1)

/-- Function `_increment_audio_play` (main.py:609): recompute the key for the
configured voice/engine, bump `play_count` on the matching index entry if
present, and persist; a missing entry (or any exception) is a no-op. -/
def increment_audio_play (env : Env) (st : AudioState) (text : String) : AudioState :=
  let index := st.indexFile.getD []
  let key := cacheKey text env.vid env.engine env.fmt env.region
  match lookupStr index key with
  | some e =>
    { st with indexFile := some (dictUpd index key { e with play_count := e.play_count + 1 }) }
  | none => st

/-- Observable state of the `main.py` server: the audio cache and the SSE
client queues.  `main.py` has no vote store at all. -/
structure ServerState where
  audio : AudioState
  clients : List PyQueue
deriving Repr

/-- The `vote` handler (main.py:770): clamp, pick a quote, resolve audio
only when TTS is enabled (bumping the play counter when a locator came
back), compose the payload dict, broadcast it, and return it with status
200.  `msgs` is the merged `MESSAGES` dict (string keys). -/
def vote (env : Env) (prov : Provider) (pickQuote : Int → String)
    (msgs : List (String × String)) (st : ServerState) (score : Int) :
    HttpResponse × ServerState :=
  let clamped := clamp10 score
  let quote := pickQuote clamped
  let audio := if env.tts_enabled then generate_audio_url env prov st.audio quote
               else ("", st.audio, 0)
  let audio2 := if audio.1 ≠ "" then increment_audio_play env audio.2.1 quote
                else audio.2.1
  let payload := Json.obj
    [("type", Json.str "vote"),
     ("enable_tts", Json.bool env.tts_enabled),
     ("enable_dingdong", Json.bool env.dingdong_enabled),
     ("score", Json.num clamped),
     ("message", Json.str ((lookupStr msgs (toString clamped)).getD "")),
     ("quote", Json.str quote),
     ("audio_url", Json.str audio.1),
     ("level", Json.str (level_for_score clamped)),
     ("duration_ms", Json.num env.banner_ms),
     ("effects", Json.obj
       [("static_noise", Json.bool env.add_static_noise),
        ("preset", Json.str (if env.effect_preset = "" then "none" else env.effect_preset)),
        ("static_noise_level", Json.fnum env.static_noise_level),
        ("radio_noise_level", Json.fnum env.radio_noise_level),
        ("wind_noise_level", Json.fnum env.wind_noise_level)]),
     ("ts", Json.str env.now)]
  (⟨200, payload⟩,
   { audio := audio2, clients := SSEHub.broadcast payload st.clients })

end Main

/-! ## Concrete fixtures

Closed inputs used by witnesses and counterexamples. -/

/-- A `main.py` environment: TTS on, voice `Joanna` resolved to the
`neural` engine, mp3, `us-east-1`. -/
def mainEnvNeural : Main.Env where
  tts_enabled := true
  dingdong_enabled := false
  vid := "Joanna"
  engine := "neural"
  fmt := "mp3"
  region := "us-east-1"
  banner_ms := 8000
  add_static_noise := false
  effect_preset := "none"
  static_noise_level := 0
  radio_noise_level := 0
  wind_noise_level := 0
  now := "2024-01-01T00:00:00Z"

/-- The same environment with the voice resolved to `standard`. -/
def mainEnvStd : Main.Env :=
  { mainEnvNeural with engine := "standard" }

/-- Environment `mainEnvStd` pointed at a different AWS region. -/
def mainEnvStdEU : Main.Env :=
  { mainEnvStd with region := "eu-west-1" }

/-- A provider that rejects the `neural` engine with a `ClientError` and
accepts `standard` (an engine/voice mismatch). -/
def provStdOnly : Main.Provider :=
  fun _ engine => if engine = "standard" then Main.SynthResult.ok else Main.SynthResult.clientError

/-- A provider whose synthesis always succeeds. -/
def provAlwaysOk : Main.Provider :=
  fun _ _ => Main.SynthResult.ok

/-- A provider that fails every synthesis call with a `ClientError`. -/
def provAlwaysFails : Main.Provider :=
  fun _ _ => Main.SynthResult.clientError

/-- A fresh audio cache: no index file, no artifacts. -/
def audioStEmpty : Main.AudioState :=
  ⟨none, [], []⟩

/-- A fresh `main.py` server with one healthy unbounded subscriber. -/
def mainStFresh : Main.ServerState :=
  ⟨audioStEmpty, [⟨[], 0, false⟩]⟩

/-- A quote oracle (`get_random_quote`) returning a fixed line per score. -/
def pickQ : Int → String :=
  fun s => "quote-" ++ toString s

/-- An `app.py` environment with AWS credentials configured. -/
def appEnvCreds : App.Env :=
  ⟨true, "mp3", 8000, "2024-01-01T00:00:00Z"⟩

/-- An `app.py` Polly call that always raises. -/
def synthNever : String → Bool :=
  fun _ => false

/-- A fresh `app.py` server: healed empty vote log, no audio files, one
healthy unbounded subscriber. -/
def appStFresh : App.ServerState :=
  ⟨FileState.content DataStore.emptyLogJson, [], [⟨[], 0, false⟩]⟩

/-- The `[5, 9, 9, 3, 9]` vote log of the spec's tie-break example. -/
def landingsTie : List Json :=
  [DataStore.record 5 "t0", DataStore.record 9 "t1", DataStore.record 9 "t2",
   DataStore.record 3 "t3", DataStore.record 9 "t4"]

/-- Subscribers for the broadcast-isolation witness: a healthy unbounded
queue, a bounded queue already at capacity, and a broken queue. -/
def hubClients : List PyQueue :=
  [⟨[], 0, false⟩, ⟨[Json.null], 1, false⟩, ⟨[], 0, true⟩]

/-- A store-file predicate: absent, unreadable, unparsable, or parsed but
structurally invalid — exactly the states `_ensure_file` rewrites. -/
def invalidFile : FileState → Bool
  | FileState.content v => !DataStore.validLog v
  | _ => true

/-- Replay a sequence of `append(score, ts)` calls against a store file. -/
def appendAll (fs : FileState) (votes : List (Int × String)) : Option FileState :=
  votes.foldlM (fun s p => DataStore.append s p.1 p.2) fs

/-! ## Helper lemmas -/

theorem clamp10_idem (s : Int) : clamp10 (clamp10 s) = clamp10 s := by
  unfold clamp10
  rcases le_total s 10 with h | h <;> rcases le_total s 1 with h1 | h1 <;>
    simp [min_def, max_def] <;> split_ifs <;> omega

theorem lookupStr_mapUpd {α : Type} (l : List (String × α)) (k : String) (v : α)
    (h : (lookupStr l k).isSome = true) :
    lookupStr (l.map fun p => if p.1 = k then (k, v) else p) k = some v := by
  induction l with
  | nil => simp [lookupStr] at h
  | cons hd t ih =>
    by_cases hk : hd.1 = k
    · simp only [List.map_cons, if_pos hk]
      rw [lookupStr, if_pos rfl]
    · simp only [List.map_cons, if_neg hk]
      rw [lookupStr] at h ⊢
      rw [if_neg hk] at h ⊢
      exact ih h

theorem lookupStr_append_new {α : Type} (l : List (String × α)) (k : String) (v : α)
    (h : lookupStr l k = none) :
    lookupStr (l ++ [(k, v)]) k = some v := by
  induction l with
  | nil => simp [lookupStr]
  | cons hd t ih =>
    rw [lookupStr] at h
    by_cases hk : hd.1 = k
    · rw [if_pos hk] at h; exact absurd h (by simp)
    · rw [List.cons_append, lookupStr, if_neg hk]
      rw [if_neg hk] at h
      exact ih h

theorem lookupStr_dictUpd_self {α : Type} (l : List (String × α)) (k : String) (v : α) :
    lookupStr (dictUpd l k v) k = some v := by
  unfold dictUpd
  by_cases h : (lookupStr l k).isSome
  · rw [if_pos h]; exact lookupStr_mapUpd l k v h
  · rw [if_neg h]
    exact lookupStr_append_new l k v (Option.not_isSome_iff_eq_none.mp h)

theorem mem_insertFile (l : List String) (fn : String) :
    fn ∈ (if fn ∈ l then l else l ++ [fn]) := by
  by_cases h : fn ∈ l
  · rwa [if_pos h]
  · rw [if_neg h]; exact List.mem_append_right l (List.mem_singleton.mpr rfl)

/-- Applying `append` on a well-formed log file extends the `"landings"` array by
exactly the new record, in last position. -/
theorem appendAll_log (votes : List (Int × String)) (recs : List Json) :
    appendAll (FileState.content (Json.obj [("landings", Json.arr recs)])) votes =
      some (FileState.content (Json.obj
        [("landings", Json.arr (recs ++ votes.map fun p => DataStore.record p.1 p.2))])) := by
  induction votes generalizing recs with
  | nil => simp [appendAll]
  | cons hd tl ih =>
    have hstep : DataStore.append
        (FileState.content (Json.obj [("landings", Json.arr recs)])) hd.1 hd.2 =
        some (FileState.content
          (Json.obj [("landings", Json.arr (recs ++ [DataStore.record hd.1 hd.2]))])) := rfl
    rw [appendAll, List.foldlM_cons, hstep]
    have h2 := ih (recs ++ [DataStore.record hd.1 hd.2])
    rw [appendAll] at h2
    simpa [List.append_assoc] using h2

/-! ## Claims -/

/-- **C2.** For every integer `s`, the vote handler processes the clamped
value `max(1, min(10, s))` before any further step: the clamp lands in
`[1, 10]`, `vote(s)` behaves identically to `vote(clamp(s))` — in
particular `vote(-5)` identically to `vote(1)` and `vote(99)` identically
to `vote(10)` — the handler always answers HTTP 200, and the emitted score
is the clamped one.  (The handler is modelled as receiving an integer; URL
pattern matching is performed by the web framework, outside this
repository's code.) -/
theorem vote_clamps_before_processing (env : App.Env) (synthOk : String → Bool)
    (pickQuote : Int → String) (st : App.ServerState) (score : Int) :
    (1 ≤ clamp10 score ∧ clamp10 score ≤ 10) ∧
    App.vote env synthOk pickQuote st score = App.vote env synthOk pickQuote st (clamp10 score) ∧
    App.vote env synthOk pickQuote st (-5) = App.vote env synthOk pickQuote st 1 ∧
    App.vote env synthOk pickQuote st 99 = App.vote env synthOk pickQuote st 10 ∧
    (App.vote env synthOk pickQuote st score).1.status = 200 ∧
    jget (App.vote env synthOk pickQuote st score).1.body "score" =
      some (Json.num (clamp10 score)) := by
  have hc : ∀ a b : Int, clamp10 a = clamp10 b →
      App.vote env synthOk pickQuote st a = App.vote env synthOk pickQuote st b := by
    intro a b h
    unfold App.vote
    rw [h]
  refine ⟨⟨le_max_left 1 _, max_le (by norm_num) (min_le_left 10 score)⟩,
    hc _ _ (clamp10_idem score).symm, hc _ _ (by decide), hc _ _ (by decide), rfl, rfl⟩

/-- **C9.** The `POST /reset` handler leaves the persisted vote log (and
the audio files) completely unchanged — it never invokes the store's
clearing operation, so the reloaded landings are identical — and its only
effects are broadcasting the `{"type": "hello"}` event to all subscriber
queues and answering `{"ok": true}` with status 200. -/
theorem reset_leaves_store_unchanged (st : App.ServerState) :
    (App.reset st).2.dataFile = st.dataFile ∧
    (App.reset st).2.staticFiles = st.staticFiles ∧
    (App.reset st).2.clients = SSEHub.broadcast App.helloJson st.clients ∧
    (App.reset st).1 = ⟨200, Json.obj [("ok", Json.bool true)]⟩ ∧
    DataStore.get_landings (App.reset st).2.dataFile = DataStore.get_landings st.dataFile :=
  ⟨rfl, rfl, rfl, rfl, rfl⟩

/-- **C8.** `broadcast` is a total function (the per-queue `except` swallows
every enqueue failure, so publishing never raises, and `put_nowait` never
blocks): it attempts to enqueue the event on each registered queue, no
subscriber is removed, a failed enqueue leaves exactly that one queue
unchanged, and a successful enqueue appends the event to exactly that
queue — each subscriber's outcome is independent of the other queues. -/
theorem broadcast_isolates_subscriber_failures (payload : Json) (clients : List PyQueue) :
    (SSEHub.broadcast payload clients).length = clients.length ∧
    ∀ i, (h : i < clients.length) →
      (SSEHub.broadcast payload clients)[i]? =
        some ((put_nowait clients[i] payload).getD clients[i]) ∧
      (put_nowait clients[i] payload = none →
        (SSEHub.broadcast payload clients)[i]? = some clients[i]) ∧
      ∀ q2, put_nowait clients[i] payload = some q2 →
        (SSEHub.broadcast payload clients)[i]? = some q2 ∧
        q2.items = clients[i].items ++ [payload] := by
  refine ⟨by simp [SSEHub.broadcast], fun i h => ⟨?_, ?_, ?_⟩⟩
  · rw [SSEHub.broadcast, List.getElem?_map, List.getElem?_eq_getElem h]
    rfl
  · intro hput
    rw [SSEHub.broadcast, List.getElem?_map, List.getElem?_eq_getElem h]
    simp [hput]
  · intro q2 hput
    refine ⟨?_, ?_⟩
    · rw [SSEHub.broadcast, List.getElem?_map, List.getElem?_eq_getElem h]
      simp [hput]
    · unfold put_nowait at hput
      split_ifs at hput
      all_goals injection hput with h2
      all_goals rw [← h2]

/-- **C3.** On load, a vote-log file that is absent, unreadable, or
structurally invalid (not a JSON object holding a list under `"landings"`)
is rewritten as a fresh empty log, raising no error (`ensure_file` is
total); a subsequent `append` on the healed store succeeds and the
persisted log then holds exactly that one record. -/
theorem store_self_heals_then_appends (fs : FileState) (s : Int) (t : String)
    (h : invalidFile fs = true) :
    DataStore.ensure_file fs = FileState.content DataStore.emptyLogJson ∧
    DataStore.append (DataStore.ensure_file fs) s t =
      some (FileState.content (Json.obj
        [("landings", Json.arr [DataStore.record s t])])) ∧
    (DataStore.append (DataStore.ensure_file fs) s t).bind DataStore.get_landings =
      some [DataStore.record s t] := by
  have h1 : DataStore.ensure_file fs = FileState.content DataStore.emptyLogJson := by
    cases fs with
    | absent => rfl
    | unreadable => rfl
    | malformed => rfl
    | content v =>
      have hv : DataStore.validLog v = false := by
        simpa [invalidFile] using h
      simp [DataStore.ensure_file, hv]
  refine ⟨h1, ?_, ?_⟩ <;> rw [h1] <;> rfl

/-- Witness for C3 at a concrete corrupt file. -/
theorem store_self_heals_witness :
    invalidFile FileState.malformed = true ∧
    DataStore.append (DataStore.ensure_file FileState.malformed) 7 "2024-01-01T00:00:00Z" =
      some (FileState.content (Json.obj
        [("landings", Json.arr [DataStore.record 7 "2024-01-01T00:00:00Z"])])) :=
  ⟨rfl, (store_self_heals_then_appends FileState.malformed 7 "2024-01-01T00:00:00Z" rfl).2.1⟩

/-- **C4.** Replaying any sequence of `append(score, ts)` calls against a
fresh empty store succeeds and persists exactly the records
`{"score": score, "ts": ts}` in call order, and reloading the persisted
log yields that identical ordered sequence — nothing reordered or
modified. -/
theorem append_all_round_trip (votes : List (Int × String)) :
    appendAll (FileState.content DataStore.emptyLogJson) votes =
      some (FileState.content (Json.obj
        [("landings", Json.arr (votes.map fun p => DataStore.record p.1 p.2))])) ∧
    (appendAll (FileState.content DataStore.emptyLogJson) votes).bind DataStore.get_landings =
      some (votes.map fun p => DataStore.record p.1 p.2) := by
  have h := appendAll_log votes []
  simp only [List.nil_append] at h
  refine ⟨h, ?_⟩
  unfold DataStore.emptyLogJson
  rw [h]
  rfl

/-- Witness for C8: broadcasting to a full bounded queue (subscriber 1 of
`hubClients`) drops that message for that subscriber only, leaving its
queue unchanged. -/
theorem broadcast_isolation_witness :
    (SSEHub.broadcast (Json.str "e") hubClients)[1]? =
      some (⟨[Json.null], 1, false⟩ : PyQueue) :=
  ((broadcast_isolates_subscriber_failures (Json.str "e") hubClients).2 1 (by decide)).2.1 rfl

/-- **C5.** The `top` field of the stats view is the first five scores of
the enumerate-and-sort by `(-score, original_index)`: for any list
`sorted` that is a permutation of the enumerated scores and is sorted by
that (total, antisymmetric) key order, `top` equals the scores of its
first five elements.  (Python's stable sort then agrees with this unique
sorted permutation, indices being distinct.) -/
theorem top_five_is_stable_sort_by_key (landings : List Json) (scores : List Int)
    (sorted : List (Nat × Int))
    (h1 : landingScores landings = some scores)
    (h2 : sorted.Perm scores.enum)
    (h3 : List.Sorted topKey sorted) :
    (compute_stats landings).map StatsView.top = some ((sorted.take 5).map Prod.snd) := by
  have hsort : List.insertionSort topKey scores.enum = sorted :=
    List.eq_of_perm_of_sorted ((List.perm_insertionSort topKey scores.enum).trans h2.symm)
      (List.sorted_insertionSort topKey scores.enum) h3
  unfold compute_stats
  rw [h1]
  simp only [Option.map_some']
  rw [hsort]

/-- Witness for C5: the spec's tie-break example `[5, 9, 9, 3, 9]` gives
`top = [9, 9, 9, 5, 3]`, the three 9s kept in insertion order. -/
theorem top_five_witness :
    (compute_stats landingsTie).map StatsView.top = some [9, 9, 9, 5, 3] :=
  top_five_is_stable_sort_by_key landingsTie [5, 9, 9, 3, 9]
    [(1, 9), (2, 9), (4, 9), (0, 5), (3, 3)] (by decide) (by decide) (by decide)

/-- **C10.** A vote-log record that is an object lacking a `"score"` field
contributes the default score `0`: the stats aggregator treats it exactly
like a record with score `0` in the same position (so it participates in
`best`, `recent` and `top` as the value `0`), and appending such a record
increments `count` by one while leaving the sum feeding `average`
unchanged. -/
theorem missing_score_treated_as_zero (fields : List (String × Json))
    (hf : lookupStr fields "score" = none) :
    scoreOf (Json.obj fields) = some 0 ∧
    (∀ l1 l2 : List Json,
      compute_stats (l1 ++ Json.obj fields :: l2) =
        compute_stats (l1 ++ Json.obj [("score", Json.num 0)] :: l2)) ∧
    (∀ (l : List Json) (view : StatsView), compute_stats l = some view →
      ∃ v2, compute_stats (l ++ [Json.obj fields]) = some v2 ∧
        v2.count = view.count + 1 ∧ v2.total = view.total) := by
  have hsc : scoreOf (Json.obj fields) = some 0 := by
    simp [scoreOf, hf, pyInt]
  refine ⟨hsc, ?_, ?_⟩
  · intro l1 l2
    have hls : landingScores (l1 ++ Json.obj fields :: l2) =
        landingScores (l1 ++ Json.obj [("score", Json.num 0)] :: l2) := by
      unfold landingScores
      rw [List.mapM_append, List.mapM_append, List.mapM_cons, List.mapM_cons, hsc]
      rfl
    unfold compute_stats
    rw [hls]
  · intro l view hv
    unfold compute_stats at hv
    obtain ⟨scores, hls, hfv⟩ := Option.map_eq_some'.mp hv
    have hls2 : landingScores (l ++ [Json.obj fields]) = some (scores ++ [0]) := by
      unfold landingScores at hls ⊢
      rw [List.mapM_append, hls, List.mapM_cons, hsc]
      rfl
    refine ⟨{ count := (scores ++ [0]).length, total := (scores ++ [0]).sum,
              best := bestScore (scores ++ [0]),
              recent := ((scores ++ [0]).drop ((scores ++ [0]).length - 10)).reverse,
              top := ((List.insertionSort topKey (scores ++ [0]).enum).take 5).map
                Prod.snd },
            ?_, ?_, ?_⟩
    · unfold compute_stats
      rw [hls2]
      rfl
    · rw [← hfv]
      simp
    · rw [← hfv]
      simp

/-- Witness for C10: a record `{"ts": "x"}` without a score is aggregated
exactly like `{"score": 0}`. -/
theorem missing_score_witness :
    compute_stats [DataStore.record 7 "t", Json.obj [("ts", Json.str "x")]] =
      compute_stats [DataStore.record 7 "t", Json.obj [("score", Json.num 0)]] :=
  (missing_score_treated_as_zero [("ts", Json.str "x")] rfl).2.1 [DataStore.record 7 "t"] []

/-! ### Audio cache lemmas -/

theorem str_append_cancel_right (a b c : String) (h : a ++ c = b ++ c) : a = b := by
  have h2 := congrArg String.data h
  rw [String.data_append, String.data_append] at h2
  exact String.ext (List.append_cancel_right h2)

theorem str_append_cancel_left (a b c : String) (h : a ++ b = a ++ c) : b = c := by
  have h2 := congrArg String.data h
  rw [String.data_append, String.data_append] at h2
  exact String.ext (List.append_cancel_left h2)

/-- With TTS enabled and a configured voice, an index hit whose artifact
exists resolves immediately: no provider call, no state change. -/
theorem gen_hit (env : Main.Env) (prov : Main.Provider) (st : Main.AudioState)
    (text url : String) (htts : env.tts_enabled = true) (hv : env.vid ≠ "")
    (hhit : Main.cacheLookup st
      (Main.cacheKey text env.vid env.engine env.fmt env.region) = some url) :
    Main.generate_audio_url env prov st text = (url, st, 0) := by
  unfold Main.generate_audio_url
  simp [htts, hv, hhit]

/-- With TTS enabled and a configured voice, a cache miss with a
successful primary-engine synthesis runs the success tail once. -/
theorem gen_miss_primary_ok (env : Main.Env) (prov : Main.Provider)
    (st : Main.AudioState) (text : String)
    (htts : env.tts_enabled = true) (hv : env.vid ≠ "")
    (hmiss : Main.cacheLookup st
      (Main.cacheKey text env.vid env.engine env.fmt env.region) = none)
    (hok : prov text env.engine = Main.SynthResult.ok) :
    Main.generate_audio_url env prov st text =
      Main.finishSynth env st (st.indexFile.getD []) text env.engine 1 := by
  unfold Main.generate_audio_url
  simp [htts, hv, hmiss, hok]

/-- After the success tail records an artifact, looking the freshly
written key up in the updated cache is a hit on that artifact. -/
theorem cacheLookup_after_finishSynth (env : Main.Env) (st : Main.AudioState)
    (index : List (String × Main.AudioEntry)) (text engineUsed : String) (calls : Nat) :
    Main.cacheLookup (Main.finishSynth env st index text engineUsed calls).2.1
        (Main.cacheKey text env.vid engineUsed env.fmt env.region) =
      some ((Main.finishSynth env st index text engineUsed calls).1) := by
  unfold Main.finishSynth Main.cacheLookup
  simp only [Option.getD_some]
  rw [lookupStr_dictUpd_self]
  dsimp only
  rw [if_pos (mem_insertFile st.audioFiles (Main.audioFilename env.vid engineUsed env.fmt text))]

/-- **C6 (amended).** With TTS enabled and a voice configured: (a) if the
persisted index holds the computed key and the referenced artifact file
exists on disk, resolution returns the stored locator immediately, with no
provider call and no writes to the artifact set or index; and (b) when the
primary engine synthesizes successfully, a second resolution with the
identical `(text, voiceParams)` is a pure cache hit — same locator,
unchanged state, zero provider calls.  (When the first resolution
succeeded only via the alternate-engine retry, its entry is recorded under
the alternate-engine key while lookups use the primary-engine key, so the
second call misses and synthesizes again — see the counterexample.) -/
theorem audio_cache_hit_skips_synthesis (env : Main.Env) (prov : Main.Provider)
    (st : Main.AudioState) (text : String)
    (htts : env.tts_enabled = true) (hv : env.vid ≠ "") :
    (∀ e : Main.AudioEntry,
      lookupStr (st.indexFile.getD [])
          (Main.cacheKey text env.vid env.engine env.fmt env.region) = some e →
      e.filename ∈ st.audioFiles →
      Main.generate_audio_url env prov st text =
        ("/static/audio/" ++ e.filename, st, 0)) ∧
    (prov text env.engine = Main.SynthResult.ok →
      Main.generate_audio_url env prov
          (Main.generate_audio_url env prov st text).2.1 text =
        ((Main.generate_audio_url env prov st text).1,
         (Main.generate_audio_url env prov st text).2.1, 0)) := by
  constructor
  · intro e he hf
    apply gen_hit env prov st text _ htts hv
    unfold Main.cacheLookup
    rw [he]
    dsimp only
    rw [if_pos hf]
  · intro hok
    rcases hl : Main.cacheLookup st
        (Main.cacheKey text env.vid env.engine env.fmt env.region) with _ | url
    · -- first call was a miss; the primary engine succeeded and recorded
      -- the entry under the very key the second call looks up
      have h1 := gen_miss_primary_ok env prov st text htts hv hl hok
      rw [h1]
      exact gen_hit env prov _ text _ htts hv
        (cacheLookup_after_finishSynth env st (st.indexFile.getD []) text env.engine 1)
    · -- first call was already a hit: nothing changed
      have h1 := gen_hit env prov st text url htts hv hl
      rw [h1]
      exact h1

/-- Witness for C6: a fresh cache, an always-successful provider; the
second resolution of `"hello"` returns the first locator with the first
state and zero provider calls. -/
theorem audio_cache_witness :
    Main.generate_audio_url mainEnvStd provAlwaysOk
        (Main.generate_audio_url mainEnvStd provAlwaysOk audioStEmpty "hello").2.1 "hello" =
      ((Main.generate_audio_url mainEnvStd provAlwaysOk audioStEmpty "hello").1,
       (Main.generate_audio_url mainEnvStd provAlwaysOk audioStEmpty "hello").2.1, 0) :=
  (audio_cache_hit_skips_synthesis mainEnvStd provAlwaysOk audioStEmpty "hello"
    rfl (by decide)).2 rfl

set_option maxRecDepth 16384 in
/-- Counterexample for C6 as stated: when the voice's picked engine
(`neural`) is rejected by the provider and the alternate (`standard`)
succeeds, the first resolution performs two synthesis calls and records
its entry under the alternate-engine key; the identical second resolution
is *not* a pure cache hit — it performs two further provider calls
(synthesizing again), because the lookup key is computed for the primary
engine.  "Resolving twice performs synthesis at most once" fails. -/
theorem alternate_engine_retry_defeats_cache :
    (Main.generate_audio_url mainEnvNeural provStdOnly audioStEmpty "hello").2.2 = 2 ∧
    (Main.generate_audio_url mainEnvNeural provStdOnly audioStEmpty "hello").1 =
      "/static/audio/quote_Joanna_standard_5d41402abc4b.mp3" ∧
    (Main.generate_audio_url mainEnvNeural provStdOnly
        (Main.generate_audio_url mainEnvNeural provStdOnly audioStEmpty "hello").2.1
        "hello").2.2 = 2 :=
  ⟨rfl, rfl, rfl⟩

/-- **C7 (amended).** The audio cache key is a deterministic pure function
of exactly `(text, voice_id, engine, output_format, region)`: equal tuples
yield equal keys, and tuples differing in any single component produce
different key material (so different keys up to truncated-MD5 collision).
However, the artifact *filename* omits the region, so two resolutions
differing only in region write distinct index entries that reference the
same cached artifact and return the same locator. -/
theorem cache_key_exact_tuple_artifact_shares_region :
    (∀ t1 t2 v1 v2 e1 e2 f1 f2 r1 r2 : String,
      t1 = t2 → v1 = v2 → e1 = e2 → f1 = f2 → r1 = r2 →
      Main.cacheKey t1 v1 e1 f1 r1 = Main.cacheKey t2 v2 e2 f2 r2) ∧
    (∀ t v1 v2 e f r, v1 ≠ v2 →
      Main.keyMaterial t v1 e f r ≠ Main.keyMaterial t v2 e f r) ∧
    (∀ t1 t2 v e f r, t1 ≠ t2 →
      Main.keyMaterial t1 v e f r ≠ Main.keyMaterial t2 v e f r) ∧
    (∀ t v e1 e2 f r, e1 ≠ e2 →
      Main.keyMaterial t v e1 f r ≠ Main.keyMaterial t v e2 f r) ∧
    (∀ t v e f1 f2 r, f1 ≠ f2 →
      Main.keyMaterial t v e f1 r ≠ Main.keyMaterial t v e f2 r) ∧
    (∀ t v e f r1 r2, r1 ≠ r2 →
      Main.keyMaterial t v e f r1 ≠ Main.keyMaterial t v e f r2) ∧
    (∀ (env : Main.Env) (r2 : String) (prov : Main.Provider)
       (st : Main.AudioState) (text : String),
      env.tts_enabled = true → env.vid ≠ "" → st.indexFile = none →
      prov text env.engine = Main.SynthResult.ok →
      (Main.generate_audio_url { env with region := r2 } prov
          (Main.generate_audio_url env prov st text).2.1 text).1 =
        (Main.generate_audio_url env prov st text).1) := by
  refine ⟨?_, ?_, ?_, ?_, ?_, ?_, ?_⟩
  · intro t1 t2 v1 v2 e1 e2 f1 f2 r1 r2 h1 h2 h3 h4 h5
    rw [h1, h2, h3, h4, h5]
  · intro t v1 v2 e f r hne h
    unfold Main.keyMaterial at h
    exact hne (str_append_cancel_left _ _ _ (str_append_cancel_right _ _ _
      (str_append_cancel_right _ _ _ (str_append_cancel_right _ _ _
        (str_append_cancel_right _ _ _ (str_append_cancel_right _ _ _
          (str_append_cancel_right _ _ _ h)))))))
  · intro t1 t2 v e f r hne h
    unfold Main.keyMaterial at h
    exact hne (str_append_cancel_right _ _ _ (str_append_cancel_right _ _ _
      (str_append_cancel_right _ _ _ (str_append_cancel_right _ _ _
        (str_append_cancel_right _ _ _ (str_append_cancel_right _ _ _
          (str_append_cancel_right _ _ _ (str_append_cancel_right _ _ _ h))))))))
  · intro t v e1 e2 f r hne h
    unfold Main.keyMaterial at h
    exact hne (str_append_cancel_left _ _ _ (str_append_cancel_right _ _ _
      (str_append_cancel_right _ _ _ (str_append_cancel_right _ _ _
        (str_append_cancel_right _ _ _ h)))))
  · intro t v e f1 f2 r hne h
    unfold Main.keyMaterial at h
    exact hne (str_append_cancel_left _ _ _ (str_append_cancel_right _ _ _
      (str_append_cancel_right _ _ _ h)))
  · intro t v e f r1 r2 hne h
    unfold Main.keyMaterial at h
    exact hne (str_append_cancel_left _ _ _ h)
  · intro env r2 prov st text htts hv hidx hok
    have hmiss : Main.cacheLookup st
        (Main.cacheKey text env.vid env.engine env.fmt env.region) = none := by
      unfold Main.cacheLookup
      rw [hidx]
      rfl
    have h1 := gen_miss_primary_ok env prov st text htts hv hmiss hok
    rw [h1]
    by_cases hk : Main.cacheKey text env.vid env.engine env.fmt env.region =
        Main.cacheKey text env.vid env.engine env.fmt r2
    · -- same truncated key: the second call is a hit on the shared artifact
      have hhit := cacheLookup_after_finishSynth env st (st.indexFile.getD [])
        text env.engine 1
      rw [hk] at hhit
      rw [gen_hit { env with region := r2 } prov _ text _ htts hv hhit]
    · -- different key: the second call misses and re-synthesizes the same
      -- filename (the filename does not involve the region)
      have hmiss2 : Main.cacheLookup
          (Main.finishSynth env st (st.indexFile.getD []) text env.engine 1).2.1
          (Main.cacheKey text env.vid env.engine env.fmt r2) = none := by
        unfold Main.finishSynth Main.cacheLookup
        rw [hidx]
        simp [dictUpd, lookupStr, hk]
      have h2 := gen_miss_primary_ok { env with region := r2 } prov
        (Main.finishSynth env st (st.indexFile.getD []) text env.engine 1).2.1
        text htts hv hmiss2 hok
      rw [h2]
      rfl

/-- Witness for C7: the concrete region-sharing scenario of the amended
claim's last conjunct, at `text = "hello"`, voice `Joanna`, engine
`standard`, regions `us-east-1` versus `eu-west-1`. -/
theorem cache_key_witness :
    (Main.generate_audio_url { mainEnvStd with region := "eu-west-1" } provAlwaysOk
        (Main.generate_audio_url mainEnvStd provAlwaysOk audioStEmpty "hello").2.1
        "hello").1 =
      (Main.generate_audio_url mainEnvStd provAlwaysOk audioStEmpty "hello").1 :=
  cache_key_exact_tuple_artifact_shares_region.2.2.2.2.2.2 mainEnvStd "eu-west-1"
    provAlwaysOk audioStEmpty "hello" rfl (by decide) rfl rfl

/-- **C1 (amended).** The vote handler publishes the composed event to the
broadcast hub and answers it with status 200, but it performs no write to
the vote store: when synthesis fails for both the primary and the
alternate engine (with TTS on, a voice configured, and no cached entry),
the event still goes out carrying an empty audio locator, the audio state
is untouched — and (for the `app.py` variant, which owns the `DataStore`)
the vote handler leaves the store file unchanged for every input, so no
vote record is ever persisted. -/
theorem vote_broadcasts_without_store_append
    (env : Main.Env) (prov : Main.Provider) (pickQuote : Int → String)
    (msgs : List (String × String)) (st : Main.ServerState) (score : Int)
    (htts : env.tts_enabled = true) (hv : env.vid ≠ "")
    (hidx : st.audio.indexFile = none)
    (h1 : prov (pickQuote (clamp10 score)) env.engine = Main.SynthResult.clientError)
    (h2 : prov (pickQuote (clamp10 score)) (Main.altEngine env.engine) =
      Main.SynthResult.clientError) :
    jget (Main.vote env prov pickQuote msgs st score).1.body "audio_url" =
      some (Json.str "") ∧
    (Main.vote env prov pickQuote msgs st score).2.clients =
      SSEHub.broadcast (Main.vote env prov pickQuote msgs st score).1.body st.clients ∧
    (Main.vote env prov pickQuote msgs st score).2.audio = st.audio ∧
    (Main.vote env prov pickQuote msgs st score).1.status = 200 ∧
    (∀ (aenv : App.Env) (asy : String → Bool) (apq : Int → String)
       (ast : App.ServerState) (s2 : Int),
       (App.vote aenv asy apq ast s2).2.dataFile = ast.dataFile) := by
  have hmiss : Main.cacheLookup st.audio
      (Main.cacheKey (pickQuote (clamp10 score)) env.vid env.engine env.fmt
        env.region) = none := by
    unfold Main.cacheLookup
    rw [hidx]
    rfl
  have haudio : (if env.tts_enabled then
        Main.generate_audio_url env prov st.audio (pickQuote (clamp10 score))
      else ("", st.audio, 0)) = ("", st.audio, 2) := by
    unfold Main.generate_audio_url
    simp [htts, hv, hmiss, h1, h2]
  refine ⟨?_, rfl, ?_, rfl, fun aenv asy apq ast s2 => rfl⟩
  · simp only [Main.vote]
    rw [haudio]
    rfl
  · simp only [Main.vote]
    rw [haudio]
    rfl

/-- Witness for C1 (amended): with a provider failing on both engines, the
broadcast event of `vote(7)` carries an empty audio locator and the audio
state is unchanged. -/
theorem vote_broadcasts_witness :
    jget (Main.vote mainEnvNeural provAlwaysFails pickQ [] mainStFresh 7).1.body
        "audio_url" = some (Json.str "") ∧
    (Main.vote mainEnvNeural provAlwaysFails pickQ [] mainStFresh 7).2.audio =
      mainStFresh.audio := by
  have h := vote_broadcasts_without_store_append mainEnvNeural provAlwaysFails pickQ []
    mainStFresh 7 rfl (by decide) rfl rfl rfl
  exact ⟨h.1, h.2.2.1⟩

set_option maxRecDepth 16384 in
/-- Counterexample for C1 as stated: processing `GET /vote/7` on a fresh
server (empty, well-formed vote log) leaves the persisted vote log exactly
as it was — still empty, no record appended — even though the composed
event (with an empty audio locator, synthesis having failed) was delivered
to the subscriber queue and returned.  The handler never appends to the
durable vote store. -/
theorem vote_persists_nothing_counterexample :
    (App.vote appEnvCreds synthNever pickQ appStFresh 7).2.dataFile =
      FileState.content DataStore.emptyLogJson ∧
    DataStore.get_landings (App.vote appEnvCreds synthNever pickQ appStFresh 7).2.dataFile =
      some [] ∧
    jget (App.vote appEnvCreds synthNever pickQ appStFresh 7).1.body "audio_url" =
      some (Json.str "") ∧
    (App.vote appEnvCreds synthNever pickQ appStFresh 7).2.clients =
      [⟨[(App.vote appEnvCreds synthNever pickQ appStFresh 7).1.body], 0, false⟩] :=
  ⟨rfl, rfl, rfl, rfl⟩

set_option maxRecDepth 16384 in
/-- Counterexample for C7 as stated: two requests that differ in a
component of the tuple (the region) *do* resolve to the same cached
artifact: both return the locator
`/static/audio/quote_Joanna_standard_5d41402abc4b.mp3` (the filename has
no region component), the second even via a fresh synthesis under its own
distinct cache key (one provider call), so two index entries reference one
artifact file. -/
theorem different_region_shares_artifact :
    mainEnvStd.region ≠ mainEnvStdEU.region ∧
    (Main.generate_audio_url mainEnvStd provAlwaysOk audioStEmpty "hello").1 =
      "/static/audio/quote_Joanna_standard_5d41402abc4b.mp3" ∧
    (Main.generate_audio_url mainEnvStdEU provAlwaysOk
        (Main.generate_audio_url mainEnvStd provAlwaysOk audioStEmpty "hello").2.1
        "hello").1 =
      "/static/audio/quote_Joanna_standard_5d41402abc4b.mp3" ∧
    (Main.generate_audio_url mainEnvStdEU provAlwaysOk
        (Main.generate_audio_url mainEnvStd provAlwaysOk audioStEmpty "hello").2.1
        "hello").2.2 = 1 :=
  ⟨by decide, rfl, rfl, rfl⟩

end LandingJudge
